import Mathlib

/-!
# Invalid-transaction diagnostics pipeline: a shallow embedding

The repository's sources under scrutiny contain the unit tests of the
invalid-transaction publisher (`src/test/invalid_txn_publisher_tests.cpp`);
the implementation itself (`invalid_txn_publisher.h`, the double-spend
detector) is not part of the source tree, so the data model and the
operations below are modelled from the specification of the pipeline:
the conflict tracker (§4.1), the invalid-transaction record with its
memory accounting and truncation (§4.2), and the publisher with its
fitting algorithm, bounded queue and FIFO background delivery (§4.3).
-/

/-- An outpoint: one specific output of one specific transaction
(transaction identifier + output index); structural equality. -/
structure COutPoint where
  txid : Nat
  n : Nat
deriving DecidableEq, Repr

/-- Modelled from the spec: missing `CTxnDoubleSpendDetector`. The conflict
tracker state, a mapping from outpoints to the identifier of the
transaction currently claiming them (§3), kept as an association list. -/
structure CTxnDoubleSpendDetector where
  claims : List (COutPoint × Nat)
deriving DecidableEq, Repr

/-- The freshly created conflict tracker: no outpoint is claimed. -/
def emptyDetector : CTxnDoubleSpendDetector :=
  { claims := [] }

/-- The transaction currently claiming an outpoint, if any. -/
def lookupClaimant (d : CTxnDoubleSpendDetector) (o : COutPoint) : Option Nat :=
  (d.claims.find? (fun q => decide (q.1 = o))).map (fun q => q.2)

/-- Modelled from the spec: missing `CTxnDoubleSpendDetector::insertTxnInputs`
(`TryClaim` in §4.1). Atomically tests-and-inserts a candidate transaction's
input set: if no input is already claimed, all are claimed for the candidate
and the attempt is accepted; otherwise the attempt is rejected, the distinct
existing claimants (deduplicated by claimant) are reported as collisions and
the map is left unchanged. -/
def insertTxnInputs (d : CTxnDoubleSpendDetector) (inputs : List COutPoint)
    (cand : Nat) : Bool × List Nat × CTxnDoubleSpendDetector :=
  let collisions := (inputs.filterMap (fun o => lookupClaimant d o)).dedup
  if collisions = [] then
    (true, [], { claims := d.claims ++ inputs.map (fun o => (o, cand)) })
  else
    (false, collisions, d)

/-- Modelled from the spec: missing collision-entry type of
`InvalidTxnInfo`. One collision entry of a record: the transaction it
collided with, either with its full serialized body (`body = some bytes`)
or already truncated to the summary-only representation (identifier,
input/output counts, `body = none`) of §4.2. -/
structure CollisionEntry where
  txId : Nat
  numInputs : Nat
  numOutputs : Nat
  body : Option (List Nat)
deriving DecidableEq, Repr

/-- Fixed per-collision-entry overhead of the memory accounting (§4.2). -/
def perEntryOverhead : Nat := 16

/-- The serialized-size estimate attributed to one collision entry: the
per-entry overhead plus the entry's body size (0 once truncated). -/
def entryFootprint (e : CollisionEntry) : Nat :=
  perEntryOverhead + (e.body.getD []).length

/-- Modelled from the spec: missing `TruncateTransactionDetails()` (§4.2).
Replaces the full transaction body with the summary-only representation,
keeping identifier and input/output counts. -/
def TruncateTransactionDetails (e : CollisionEntry) : CollisionEntry :=
  { e with body := none }

/-- Sum of the footprints of a list of collision entries. -/
def footSum (es : List CollisionEntry) : Nat :=
  (es.map entryFootprint).sum

/-- Modelled from the spec: missing `InvalidTxnInfo`. The
invalid-transaction record (§3): the rejected transaction (identifier and
serialized body), rejection reason, timestamp, height context, and the
ordered collision entries. -/
structure InvalidTxnInfo where
  txId : Nat
  txBody : List Nat
  rejectionReason : Nat
  timestamp : Nat
  height : Nat
  collidedWith : List CollisionEntry
deriving DecidableEq, Repr

/-- Modelled from the spec: missing `InvalidTxnInfo::DynamicMemoryUsage()`
(§4.2): the serialized-size estimate of the primary transaction plus, for
each collision entry, its footprint. -/
def DynamicMemoryUsage (r : InvalidTxnInfo) : Nat :=
  r.txBody.length + footSum r.collidedWith

/-- The record with its collision entries replaced. -/
def withCollided (r : InvalidTxnInfo) (es : List CollisionEntry) : InvalidTxnInfo :=
  { r with collidedWith := es }

/-- One collision entry rendered to the structured output (§6): the
truncated flag, the colliding transaction identifier, the input/output
counts, and the payload bytes only when not truncated. -/
def renderEntry (e : CollisionEntry) : List Nat :=
  match e.body with
  | some bs => 0 :: e.txId :: e.numInputs :: e.numOutputs :: bs
  | none => [1, e.txId, e.numInputs, e.numOutputs]

/-- Modelled from the spec: missing `InvalidTxnInfo::ToJson` rendering, as
exercised by the test helper `InvalidTxnInfoToJson`. Renders the stable
field order of §6: transaction identifier, rejection reason, timestamp,
height, then each collision entry in order. The output is the byte
sequence a structured sink would receive. -/
def InvalidTxnInfoToJson (r : InvalidTxnInfo) : List Nat :=
  r.txId :: r.rejectionReason :: r.timestamp :: r.height ::
    (r.collidedWith.map renderEntry).flatten

/-- Modelled from the spec: missing `GetCollidedWithTruncationRange()`. The
collision entries in the order the publisher's fitting algorithm truncates
them. The unit test truncates this range's first element and calls it "the
last transaction" (§8 likewise speaks of "the last collision entry"), so
the truncation order is the reverse of the stored collision order. -/
def GetCollidedWithTruncationRange (r : InvalidTxnInfo) : List CollisionEntry :=
  r.collidedWith.reverse

/-- The collision entries with the last `n` of them truncated (that is,
the first `n` entries of the truncation range of §4.3/§8). -/
def truncateLastEntries : List CollisionEntry → Nat → List CollisionEntry
  | [], _ => []
  | e :: es, n =>
      (if es.length + 1 ≤ n then TruncateTransactionDetails e else e) ::
        truncateLastEntries es n

/-- The record's footprint after the first `n` entries of its truncation
range have been truncated. -/
def usageAfter (r : InvalidTxnInfo) (n : Nat) : Nat :=
  DynamicMemoryUsage (withCollided r (truncateLastEntries r.collidedWith n))

/-- Modelled from the spec: the publisher's fitting step (§4.3). If the
record fits the remaining budget as-is it is kept unchanged; otherwise
collision entries are truncated one at a time in truncation-range order,
the footprint recomputed after each truncation, stopping as soon as the
record fits; if it still does not fit with every entry truncated, the
record is discarded (`none`). The sequential loop is rendered as the
search for the least number of truncations after which the record fits. -/
def fitToBudget (budget : Nat) (r : InvalidTxnInfo) : Option InvalidTxnInfo :=
  match (List.range (r.collidedWith.length + 1)).find?
      (fun n => decide (usageAfter r n ≤ budget)) with
  | some n => some (withCollided r (truncateLastEntries r.collidedWith n))
  | none => none

/-- Modelled from the spec: missing `CInvalidTxnPublisher` (§4.3). The
sink registry fixed at construction (sinks are identified by index), the
capacity budget, the bounded queue of records paired with their footprint
at enqueue time, the running footprint counter, and — for observing the
background task — the sequence of (sink, record) deliveries performed so
far. -/
structure CInvalidTxnPublisher where
  sinks : List Nat
  capacity : Nat
  queue : List (InvalidTxnInfo × Nat)
  queuedFootprint : Nat
  delivered : List (Nat × InvalidTxnInfo)
deriving DecidableEq, Repr

/-- A freshly constructed publisher: empty queue, nothing delivered. -/
def mkPublisher (sinks : List Nat) (capacity : Nat) : CInvalidTxnPublisher :=
  { sinks := sinks, capacity := capacity, queue := [], queuedFootprint := 0,
    delivered := [] }

/-- Modelled from the spec: missing `CInvalidTxnPublisher::Publish` (§4.3).
With no registered sinks the record is discarded immediately with no
queueing. Otherwise the record is fitted to the remaining budget
(truncating collision entries as needed); if it cannot fit it is discarded
silently, else the (possibly truncated) record and its final footprint are
appended to the queue and the running counter incremented. -/
def Publish (p : CInvalidTxnPublisher) (r : InvalidTxnInfo) : CInvalidTxnPublisher :=
  if p.sinks.isEmpty then p
  else
    match fitToBudget (p.capacity - p.queuedFootprint) r with
    | none => p
    | some r2 =>
        { p with queue := p.queue ++ [(r2, DynamicMemoryUsage r2)],
                 queuedFootprint := p.queuedFootprint + DynamicMemoryUsage r2 }

/-- One step of the background delivery task (§4.3): dequeue the front
record, invoke every registered sink on it in registration order, and
subtract its footprint from the running counter. -/
def deliverNext (p : CInvalidTxnPublisher) : CInvalidTxnPublisher :=
  match p.queue with
  | [] => p
  | (r, f) :: rest =>
      { p with queue := rest,
               queuedFootprint := p.queuedFootprint - f,
               delivered := p.delivered ++ p.sinks.map (fun s => (s, r)) }

/-- Iterated delivery steps. -/
def drainSteps : Nat → CInvalidTxnPublisher → CInvalidTxnPublisher
  | 0, p => p
  | Nat.succ k, p => drainSteps k (deliverNext p)

/-- The background delivery task draining the whole queue in FIFO order. -/
def drain (p : CInvalidTxnPublisher) : CInvalidTxnPublisher :=
  drainSteps p.queue.length p

/-- Modelled from the spec: missing `CInvalidTxnPublisher::ClearStored`
(§4.3): discards every record still queued, returns how many were
discarded, and resets the running footprint counter. -/
def ClearStored (p : CInvalidTxnPublisher) : Nat × CInvalidTxnPublisher :=
  (p.queue.length, { p with queue := [], queuedFootprint := 0 })

/-- Truncation of the collision entry at position `i` of a record's stored
collision list (out-of-range positions leave the record unchanged). -/
def truncateEntryAt (r : InvalidTxnInfo) (i : Nat) : InvalidTxnInfo :=
  match r.collidedWith.get? i with
  | some e => withCollided r (r.collidedWith.set i (TruncateTransactionDetails e))
  | none => r

/-- Well-formedness of a record: every not-yet-truncated collision entry
carries a nonempty serialized transaction body (a serialized transaction
always occupies at least one byte). -/
def RecordWf (r : InvalidTxnInfo) : Prop :=
  ∀ e ∈ r.collidedWith, e.body ≠ some []

/-- The summary-only collision entry with the same identity fields as `e`:
the entry a caller would construct already-truncated. -/
def summaryOf (e : CollisionEntry) : CollisionEntry :=
  { txId := e.txId, numInputs := e.numInputs, numOutputs := e.numOutputs,
    body := none }

/-!
## Shared-ownership model of transaction bodies

Modelled from the spec (§9): transaction bodies are shared, reference
counted, immutable handles; a record's collision entry holds a handle into
the shared store, copying a record copies the handle list, and truncation
replaces the copy's handle with a lightweight summary value rather than
mutating the shared data in place. This refined model makes the sharing
between a record and its copy explicit, so that the frame property of
truncation (the original record and the store are untouched) is a
statement and not a triviality of value semantics.
-/

/-- The shared store of immutable transaction bodies, indexed by handle. -/
def TxStore : Type := List (List Nat)

/-- A collision entry holding a handle into the shared store
(`handle = none` once truncated to the summary representation). -/
structure SharedCollisionEntry where
  txId : Nat
  numInputs : Nat
  numOutputs : Nat
  handle : Option Nat
deriving DecidableEq, Repr

/-- An invalid-transaction record whose transaction bodies live in the
shared store. -/
structure SharedInvalidTxnInfo where
  txId : Nat
  txHandle : Nat
  rejectionReason : Nat
  timestamp : Nat
  height : Nat
  collidedWith : List SharedCollisionEntry
deriving DecidableEq, Repr

/-- The body an entry's handle refers to (empty once truncated). -/
def storeBody (s : TxStore) (h : Option Nat) : List Nat :=
  match h with
  | some i => List.getD s i []
  | none => []

/-- Footprint of a shared collision entry relative to the store. -/
def sharedEntryFootprint (s : TxStore) (e : SharedCollisionEntry) : Nat :=
  perEntryOverhead + (storeBody s e.handle).length

/-- `DynamicMemoryUsage` of a shared record relative to the store. -/
def sharedUsage (s : TxStore) (r : SharedInvalidTxnInfo) : Nat :=
  (List.getD s r.txHandle []).length +
    (r.collidedWith.map (sharedEntryFootprint s)).sum

/-- One shared collision entry rendered to the structured output (§6). -/
def sharedRenderEntry (s : TxStore) (e : SharedCollisionEntry) : List Nat :=
  match e.handle with
  | some i => 0 :: e.txId :: e.numInputs :: e.numOutputs :: List.getD s i []
  | none => [1, e.txId, e.numInputs, e.numOutputs]

/-- Rendering of a shared record relative to the store (§6 field order). -/
def sharedRender (s : TxStore) (r : SharedInvalidTxnInfo) : List Nat :=
  r.txId :: r.rejectionReason :: r.timestamp :: r.height ::
    (r.collidedWith.map (sharedRenderEntry s)).flatten

/-- The summary value replacing a truncated shared entry's handle. -/
def sharedSummary (e : SharedCollisionEntry) : SharedCollisionEntry :=
  { txId := e.txId, numInputs := e.numInputs, numOutputs := e.numOutputs,
    handle := none }

/-- Modelled from the spec: `TruncateTransactionDetails` in the
shared-ownership model (§9). The operation receives the store as well and
returns it, so that the statement that it does not write through the
shared handles is a theorem about this definition rather than a
convention: it only replaces the designated entry's handle with the
summary value. -/
def sharedTruncateAt (s : TxStore) (r : SharedInvalidTxnInfo) (i : Nat) :
    TxStore × SharedInvalidTxnInfo :=
  match r.collidedWith.get? i with
  | some e => (s, { r with collidedWith := r.collidedWith.set i (sharedSummary e) })
  | none => (s, r)

/-!
## Basic lemmas about footprints and truncation
-/

theorem footSum_cons (e : CollisionEntry) (es : List CollisionEntry) :
    footSum (e :: es) = entryFootprint e + footSum es := rfl

theorem entryFootprint_truncate (e : CollisionEntry) :
    entryFootprint (TruncateTransactionDetails e) = perEntryOverhead := rfl

theorem entryFootprint_truncate_le (e : CollisionEntry) :
    entryFootprint (TruncateTransactionDetails e) ≤ entryFootprint e := by
  simp [entryFootprint, TruncateTransactionDetails]

theorem truncateLastEntries_zero (es : List CollisionEntry) :
    truncateLastEntries es 0 = es := by
  induction es with
  | nil => rfl
  | cons e es ih => simp [truncateLastEntries, ih]

theorem withCollided_self (r : InvalidTxnInfo) :
    withCollided r r.collidedWith = r := rfl

theorem usageAfter_zero (r : InvalidTxnInfo) :
    usageAfter r 0 = DynamicMemoryUsage r := by
  simp [usageAfter, truncateLastEntries_zero, withCollided_self]

theorem usageAfter_eq (r : InvalidTxnInfo) (n : Nat) :
    usageAfter r n
      = r.txBody.length + footSum (truncateLastEntries r.collidedWith n) := rfl

theorem truncateLastEntries_snoc_one (es : List CollisionEntry)
    (e : CollisionEntry) :
    truncateLastEntries (es ++ [e]) 1 = es ++ [TruncateTransactionDetails e] := by
  induction es with
  | nil => simp [truncateLastEntries]
  | cons a es ih =>
      have h : ¬((es ++ [e]).length + 1 ≤ 1) := by
        simp [List.length_append]
      simp [truncateLastEntries, ih, h]

theorem footSum_truncateLastEntries_anti (es : List CollisionEntry) {n m : Nat}
    (h : n ≤ m) :
    footSum (truncateLastEntries es m) ≤ footSum (truncateLastEntries es n) := by
  induction es with
  | nil => simp [truncateLastEntries]
  | cons e es ih =>
      simp only [truncateLastEntries, footSum_cons]
      have hhead :
          entryFootprint (if es.length + 1 ≤ m then TruncateTransactionDetails e else e)
            ≤ entryFootprint (if es.length + 1 ≤ n then TruncateTransactionDetails e else e) := by
        by_cases hn : es.length + 1 ≤ n
        · have hm : es.length + 1 ≤ m := le_trans hn h
          simp [hn, hm]
        · by_cases hm : es.length + 1 ≤ m
          · simpa [hn, hm] using entryFootprint_truncate_le e
          · simp [hn, hm]
      exact Nat.add_le_add hhead ih

theorem footSum_set (es : List CollisionEntry) (i : Nat) (e x : CollisionEntry)
    (h : es.get? i = some e) :
    footSum (es.set i x) + entryFootprint e = footSum es + entryFootprint x := by
  induction es generalizing i with
  | nil => simp at h
  | cons a es ih =>
      cases i with
      | zero =>
          simp only [List.get?] at h
          cases h
          simp [footSum_cons, List.set]
          omega
      | succ i =>
          simp only [List.get?] at h
          have := ih i h
          simp only [List.set, footSum_cons]
          omega

/-!
## The fitting algorithm
-/

theorem fitToBudget_of_fits (budget : Nat) (r : InvalidTxnInfo)
    (h : DynamicMemoryUsage r ≤ budget) :
    fitToBudget budget r = some r := by
  unfold fitToBudget
  have h0 : decide (usageAfter r 0 ≤ budget) = true := by
    simpa [usageAfter_zero] using h
  rw [List.range_succ_eq_map]
  simp only [List.find?_cons, h0]
  simp [truncateLastEntries_zero, withCollided_self]

theorem fitToBudget_one (budget : Nat) (r : InvalidTxnInfo)
    (h0 : ¬ DynamicMemoryUsage r ≤ budget) (h1 : usageAfter r 1 ≤ budget) :
    fitToBudget budget r
      = some (withCollided r (truncateLastEntries r.collidedWith 1)) := by
  have hlen : 1 ≤ r.collidedWith.length := by
    by_contra hl
    have hnil : r.collidedWith = [] := by
      cases hcw : r.collidedWith with
      | nil => rfl
      | cons a es => rw [hcw] at hl; simp at hl
    rw [usageAfter_eq, hnil] at h1
    simp only [truncateLastEntries] at h1
    rw [show r.txBody.length + footSum [] = DynamicMemoryUsage r by
      simp [DynamicMemoryUsage, hnil]] at h1
    exact h0 h1
  obtain ⟨k, hk⟩ : ∃ k, r.collidedWith.length = k + 1 :=
    ⟨r.collidedWith.length - 1, by omega⟩
  have h0f : decide (usageAfter r 0 ≤ budget) = false := by
    simp [usageAfter_zero, h0]
  have h1t : decide (usageAfter r 1 ≤ budget) = true := by simpa using h1
  unfold fitToBudget
  rw [hk, List.range_succ_eq_map, List.range_succ_eq_map]
  simp only [List.map_cons, List.find?_cons, h0f, h1t]

theorem fitToBudget_none (budget : Nat) (r : InvalidTxnInfo)
    (h : ¬ usageAfter r r.collidedWith.length ≤ budget) :
    fitToBudget budget r = none := by
  unfold fitToBudget
  have hfind :
      (List.range (r.collidedWith.length + 1)).find?
        (fun n => decide (usageAfter r n ≤ budget)) = none := by
    rw [List.find?_eq_none]
    intro n hn
    simp only [decide_eq_true_eq]
    intro hle
    apply h
    have hn' : n ≤ r.collidedWith.length := by
      have := List.mem_range.mp hn
      omega
    have hanti := footSum_truncateLastEntries_anti r.collidedWith hn'
    rw [usageAfter_eq] at hle ⊢
    omega
  rw [hfind]

/-!
## The background delivery task
-/

theorem drainSteps_delivered :
    ∀ (qs : List (InvalidTxnInfo × Nat)) (p : CInvalidTxnPublisher),
      p.queue = qs →
      (drainSteps qs.length p).delivered
        = p.delivered ++ (qs.map (fun q => p.sinks.map (fun s => (s, q.1)))).flatten := by
  intro qs
  induction qs with
  | nil => intro p hq; simp [drainSteps]
  | cons q qs ih =>
      intro p hq
      have hnext : (deliverNext p).queue = qs := by
        simp [deliverNext, hq]
      have hsinks : (deliverNext p).sinks = p.sinks := by
        simp [deliverNext, hq]
      have hdel : (deliverNext p).delivered
          = p.delivered ++ p.sinks.map (fun s => (s, q.1)) := by
        simp [deliverNext, hq]
      simp only [List.length_cons, drainSteps]
      rw [ih (deliverNext p) hnext, hdel, hsinks]
      simp

theorem drain_delivered (p : CInvalidTxnPublisher) :
    (drain p).delivered
      = p.delivered
        ++ (p.queue.map (fun q => p.sinks.map (fun s => (s, q.1)))).flatten :=
  drainSteps_delivered p.queue p rfl

theorem isEmpty_false_of_ne_nil {sinks : List Nat} (hs : sinks ≠ []) :
    sinks.isEmpty = false := by
  cases sinks with
  | nil => exact absurd rfl hs
  | cons a l => rfl

/-!
## The claims
-/

/-- C3: for every record whose footprint at enqueue time is at most the
publisher's capacity budget, `Publish` enqueues it without any truncation
and the registered sink eventually receives a record whose rendered output
is byte-identical to the rendered output of the original record. -/
theorem publish_enough_space_for_info (sinks : List Nat) (cap : Nat)
    (r : InvalidTxnInfo) (hs : sinks ≠ []) (h : DynamicMemoryUsage r ≤ cap) :
    (drain (Publish (mkPublisher sinks cap) r)).delivered
        = sinks.map (fun s => (s, r))
    ∧ (drain (Publish (mkPublisher sinks cap) r)).delivered.map
          (fun q => InvalidTxnInfoToJson q.2)
        = sinks.map (fun _ => InvalidTxnInfoToJson r) := by
  have hfit : fitToBudget cap r = some r := fitToBudget_of_fits cap r h
  have hse : sinks.isEmpty = false := isEmpty_false_of_ne_nil hs
  have hpub : Publish (mkPublisher sinks cap) r
      = { sinks := sinks, capacity := cap,
          queue := [(r, DynamicMemoryUsage r)],
          queuedFootprint := DynamicMemoryUsage r, delivered := [] } := by
    simp [Publish, mkPublisher, hse, hfit]
  constructor
  · rw [hpub, drain_delivered]
    simp
  · rw [hpub, drain_delivered]
    simp only [drain, List.map_cons, List.map_nil, List.flatten,
      List.nil_append, List.append_nil, List.map_map]
    rfl

/-- C1: for a publisher whose capacity budget is at least the record's
footprint after truncating exactly one collision entry (the last one, the
first of the truncation range) but strictly less than the untruncated
footprint, `Publish` truncates collision entries one at a time in
truncation-range order, stopping as soon as the record fits, and the
record delivered to each sink renders byte-identically to the original
record with only that one entry truncated. -/
theorem publish_missing_some_space_for_info (sinks : List Nat) (cap : Nat)
    (r : InvalidTxnInfo) (es : List CollisionEntry) (e : CollisionEntry)
    (hs : sinks ≠ []) (hcw : r.collidedWith = es ++ [e])
    (h0 : ¬ DynamicMemoryUsage r ≤ cap)
    (h1 : DynamicMemoryUsage
        (withCollided r (es ++ [TruncateTransactionDetails e])) ≤ cap) :
    (drain (Publish (mkPublisher sinks cap) r)).delivered
        = sinks.map (fun s =>
            (s, withCollided r (es ++ [TruncateTransactionDetails e])))
    ∧ (drain (Publish (mkPublisher sinks cap) r)).delivered.map
          (fun q => InvalidTxnInfoToJson q.2)
        = sinks.map (fun _ =>
            InvalidTxnInfoToJson
              (withCollided r (es ++ [TruncateTransactionDetails e]))) := by
  have htr : truncateLastEntries r.collidedWith 1
      = es ++ [TruncateTransactionDetails e] := by
    rw [hcw, truncateLastEntries_snoc_one]
  have h1a : usageAfter r 1 ≤ cap := by
    unfold usageAfter
    rw [htr]
    exact h1
  have hfit : fitToBudget cap r
      = some (withCollided r (es ++ [TruncateTransactionDetails e])) := by
    rw [fitToBudget_one cap r h0 h1a, htr]
  have hse : sinks.isEmpty = false := isEmpty_false_of_ne_nil hs
  have hpub : Publish (mkPublisher sinks cap) r
      = { sinks := sinks, capacity := cap,
          queue := [(withCollided r (es ++ [TruncateTransactionDetails e]),
            DynamicMemoryUsage
              (withCollided r (es ++ [TruncateTransactionDetails e])))],
          queuedFootprint :=
            DynamicMemoryUsage
              (withCollided r (es ++ [TruncateTransactionDetails e])),
          delivered := [] } := by
    simp [Publish, mkPublisher, hse, hfit]
  constructor
  · rw [hpub, drain_delivered]
    simp
  · rw [hpub, drain_delivered]
    simp only [List.map_cons, List.map_nil, List.flatten,
      List.nil_append, List.append_nil, List.map_map]
    rfl

/-- C4: for every record whose footprint, even after truncating all of its
collision entries, still exceeds the publisher's capacity budget
(including capacity = 1 byte), `Publish` discards the record silently: the
publisher's state is unchanged, no sink is ever invoked for it by the
delivery task, and `Publish` returns normally to the producer. -/
theorem publish_not_enough_space_for_info (sinks : List Nat) (cap : Nat)
    (r : InvalidTxnInfo)
    (h : cap < usageAfter r r.collidedWith.length) :
    Publish (mkPublisher sinks cap) r = mkPublisher sinks cap
    ∧ (drain (Publish (mkPublisher sinks cap) r)).delivered = [] := by
  have hfit : fitToBudget cap r = none := fitToBudget_none cap r (by omega)
  have hpub : Publish (mkPublisher sinks cap) r = mkPublisher sinks cap := by
    by_cases hse : sinks.isEmpty = true
    · simp [Publish, mkPublisher, hse]
    · simp [Publish, mkPublisher, hse, hfit]
  refine ⟨hpub, ?_⟩
  rw [hpub, drain_delivered]
  simp [mkPublisher]

/-- C5: publishing any sequence of records on a publisher constructed with
zero registered sinks discards them immediately without queueing or
background work — the publisher stays in its freshly constructed state — a
subsequent `ClearStored` returns 0, and no sink is ever invoked. -/
theorem publish_no_sinks (cap : Nat) (rs : List InvalidTxnInfo) :
    List.foldl Publish (mkPublisher [] cap) rs = mkPublisher [] cap
    ∧ (ClearStored (List.foldl Publish (mkPublisher [] cap) rs)).1 = 0
    ∧ (drain (List.foldl Publish (mkPublisher [] cap) rs)).delivered = [] := by
  have hone : Publish (mkPublisher [] cap) = fun _ => mkPublisher [] cap := by
    funext r
    simp [Publish, mkPublisher]
  have hfold : List.foldl Publish (mkPublisher [] cap) rs = mkPublisher [] cap := by
    induction rs with
    | nil => rfl
    | cons r rs ih =>
        rw [List.foldl_cons, show Publish (mkPublisher [] cap) r
          = mkPublisher [] cap from congrFun hone r]
        exact ih
  refine ⟨hfold, ?_, ?_⟩
  · rw [hfold]
    rfl
  · rw [hfold, drain_delivered]
    simp [mkPublisher]

/-- C9: for any two records that both fit within capacity and are enqueued
in the order first-then-second, the publisher's single background delivery
task delivers the first to each sink before the second: sinks observe
records in FIFO enqueue order, with no reordering introduced by the
publisher. -/
theorem fifo_delivery (sinks : List Nat) (cap : Nat) (r1 r2 : InvalidTxnInfo)
    (hs : sinks ≠ [])
    (h1 : DynamicMemoryUsage r1 ≤ cap)
    (h2 : DynamicMemoryUsage r1 + DynamicMemoryUsage r2 ≤ cap) :
    (drain (Publish (Publish (mkPublisher sinks cap) r1) r2)).delivered
      = sinks.map (fun s => (s, r1)) ++ sinks.map (fun s => (s, r2)) := by
  have hse : sinks.isEmpty = false := isEmpty_false_of_ne_nil hs
  have hfit1 : fitToBudget cap r1 = some r1 := fitToBudget_of_fits cap r1 h1
  have hp1 : Publish (mkPublisher sinks cap) r1
      = { sinks := sinks, capacity := cap,
          queue := [(r1, DynamicMemoryUsage r1)],
          queuedFootprint := DynamicMemoryUsage r1, delivered := [] } := by
    simp [Publish, mkPublisher, hse, hfit1]
  have hfit2 : fitToBudget (cap - DynamicMemoryUsage r1) r2 = some r2 :=
    fitToBudget_of_fits _ _ (by omega)
  have hp2 : Publish (Publish (mkPublisher sinks cap) r1) r2
      = { sinks := sinks, capacity := cap,
          queue := [(r1, DynamicMemoryUsage r1), (r2, DynamicMemoryUsage r2)],
          queuedFootprint := DynamicMemoryUsage r1 + DynamicMemoryUsage r2,
          delivered := [] } := by
    rw [hp1]
    simp [Publish, hse, hfit2]
  rw [hp2, drain_delivered]
  simp

/-- C2: given a base transaction with three spendable outputs and three
candidate transactions spending outpoints {0}, {1,2} and {0,1,2}
respectively, submitting the first two to the double-spend detector (in
either order) succeeds with no collisions reported, and submitting the
third afterwards is rejected (`insertTxnInputs` returns `false`), leaves
the tracker unchanged, and reports the claimants of all three conflicting
outpoints. -/
theorem double_spend_atomicity :
    (let first := insertTxnInputs emptyDetector [⟨100, 0⟩] 1
     let second := insertTxnInputs first.2.2 [⟨100, 1⟩, ⟨100, 2⟩] 2
     let third := insertTxnInputs second.2.2 [⟨100, 0⟩, ⟨100, 1⟩, ⟨100, 2⟩] 3
     first.1 = true ∧ first.2.1 = []
       ∧ second.1 = true ∧ second.2.1 = []
       ∧ third.1 = false ∧ third.2.2 = second.2.2
       ∧ lookupClaimant second.2.2 ⟨100, 0⟩ = some 1
       ∧ lookupClaimant second.2.2 ⟨100, 1⟩ = some 2
       ∧ lookupClaimant second.2.2 ⟨100, 2⟩ = some 2
       ∧ 1 ∈ third.2.1 ∧ 2 ∈ third.2.1)
    ∧ (let first := insertTxnInputs emptyDetector [⟨100, 1⟩, ⟨100, 2⟩] 2
       let second := insertTxnInputs first.2.2 [⟨100, 0⟩] 1
       let third := insertTxnInputs second.2.2 [⟨100, 0⟩, ⟨100, 1⟩, ⟨100, 2⟩] 3
       first.1 = true ∧ first.2.1 = []
         ∧ second.1 = true ∧ second.2.1 = []
         ∧ third.1 = false ∧ third.2.2 = second.2.2
         ∧ lookupClaimant second.2.2 ⟨100, 0⟩ = some 1
         ∧ lookupClaimant second.2.2 ⟨100, 1⟩ = some 2
         ∧ lookupClaimant second.2.2 ⟨100, 2⟩ = some 2
         ∧ 1 ∈ third.2.1 ∧ 2 ∈ third.2.1) := by
  decide

/-- C7: for every candidate transaction whose input set contains at least
one outpoint already claimed, `insertTxnInputs` returns `false` together
with the duplicate-free set of claimant identifiers of the conflicting
outpoints (deduplicated by claimant), and claims none of the candidate's
inputs: the tracker's map is left unchanged by the rejected attempt. -/
theorem insertTxnInputs_rejects_conflicts (d : CTxnDoubleSpendDetector)
    (inputs : List COutPoint) (cand : Nat) (o : COutPoint) (c : Nat)
    (ho : o ∈ inputs) (hc : lookupClaimant d o = some c) :
    (insertTxnInputs d inputs cand).1 = false
    ∧ (insertTxnInputs d inputs cand).2.2 = d
    ∧ (insertTxnInputs d inputs cand).2.1
        = (inputs.filterMap (fun o2 => lookupClaimant d o2)).dedup
    ∧ (insertTxnInputs d inputs cand).2.1.Nodup := by
  have hmem : c ∈ (inputs.filterMap (fun o2 => lookupClaimant d o2)).dedup := by
    rw [List.mem_dedup, List.mem_filterMap]
    exact ⟨o, ho, hc⟩
  have hne : (inputs.filterMap (fun o2 => lookupClaimant d o2)).dedup ≠ [] :=
    List.ne_nil_of_mem hmem
  have heq : insertTxnInputs d inputs cand
      = (false, (inputs.filterMap (fun o2 => lookupClaimant d o2)).dedup, d) := by
    simp [insertTxnInputs, hne]
  rw [heq]
  exact ⟨rfl, rfl, rfl, List.nodup_dedup _⟩

/-- C6: `TruncateTransactionDetails` on the collision entry at position
`i` of a well-formed record is idempotent and size-monotone: on a
not-yet-truncated entry it strictly reduces the record's
`DynamicMemoryUsage`; on an already-truncated entry it leaves usage
unchanged; invoking it twice yields the same record, hence the same
footprint and rendered output, as invoking it once; and it never
increases size. -/
theorem truncation_idempotent_monotone (r : InvalidTxnInfo) (i : Nat)
    (e : CollisionEntry) (h : r.collidedWith.get? i = some e)
    (hwf : RecordWf r) :
    (e.body ≠ none →
      DynamicMemoryUsage (truncateEntryAt r i) < DynamicMemoryUsage r)
    ∧ (e.body = none →
      DynamicMemoryUsage (truncateEntryAt r i) = DynamicMemoryUsage r)
    ∧ truncateEntryAt (truncateEntryAt r i) i = truncateEntryAt r i
    ∧ InvalidTxnInfoToJson (truncateEntryAt (truncateEntryAt r i) i)
        = InvalidTxnInfoToJson (truncateEntryAt r i)
    ∧ DynamicMemoryUsage (truncateEntryAt r i) ≤ DynamicMemoryUsage r := by
  have htr : truncateEntryAt r i
      = withCollided r (r.collidedWith.set i (TruncateTransactionDetails e)) := by
    unfold truncateEntryAt
    rw [h]
  have hfs := footSum_set r.collidedWith i e (TruncateTransactionDetails e) h
  have husage : DynamicMemoryUsage (truncateEntryAt r i) + entryFootprint e
      = DynamicMemoryUsage r
        + entryFootprint (TruncateTransactionDetails e) := by
    rw [htr]
    simp only [DynamicMemoryUsage, withCollided]
    omega
  have hidem : truncateEntryAt (truncateEntryAt r i) i = truncateEntryAt r i := by
    have hget2 : (r.collidedWith.set i (TruncateTransactionDetails e)).get? i
        = some (TruncateTransactionDetails e) := by
      rw [List.get?_set_eq, h]
      rfl
    rw [htr]
    unfold truncateEntryAt
    simp only [withCollided]
    rw [hget2]
    simp [List.set_set, TruncateTransactionDetails]
  refine ⟨?_, ?_, hidem, congrArg _ hidem, ?_⟩
  · intro hb
    cases hbody : e.body with
    | none => exact absurd hbody hb
    | some bs =>
        have hbs : bs ≠ [] := by
          have hememb : e ∈ r.collidedWith := List.get?_mem h
          intro hnil
          exact hwf e hememb (by rw [hbody, hnil])
        have hpos : 0 < bs.length := List.length_pos.mpr hbs
        have he1 : entryFootprint e = perEntryOverhead + bs.length := by
          simp [entryFootprint, hbody]
        have he2 : entryFootprint (TruncateTransactionDetails e)
            = perEntryOverhead := entryFootprint_truncate e
        omega
  · intro hb
    have he1 : entryFootprint e = perEntryOverhead := by
      simp [entryFootprint, hb]
    have he2 : entryFootprint (TruncateTransactionDetails e)
        = perEntryOverhead := entryFootprint_truncate e
    omega
  · have hle := entryFootprint_truncate_le e
    omega

/-- C8: serialization of a record is path-stable: rendering depends only
on the record's field values, so the record whose entry the publisher's
fitting algorithm truncated after the fact is equal to — and renders
byte-identically to — the record constructed with that entry already
truncated to the same summary (identifier and input/output counts), and
both have the same footprint. -/
theorem render_path_stable (r : InvalidTxnInfo) (i : Nat)
    (e : CollisionEntry) (h : r.collidedWith.get? i = some e) :
    truncateEntryAt r i = withCollided r (r.collidedWith.set i (summaryOf e))
    ∧ InvalidTxnInfoToJson (truncateEntryAt r i)
        = InvalidTxnInfoToJson
            (withCollided r (r.collidedWith.set i (summaryOf e)))
    ∧ DynamicMemoryUsage (truncateEntryAt r i)
        = DynamicMemoryUsage
            (withCollided r (r.collidedWith.set i (summaryOf e))) := by
  have h1 : truncateEntryAt r i
      = withCollided r (r.collidedWith.set i (summaryOf e)) := by
    unfold truncateEntryAt
    rw [h]
    rfl
  exact ⟨h1, congrArg _ h1, congrArg _ h1⟩

/-- C10: in the shared-ownership model, truncating a collision entry of a
copy of a record leaves the original record's observations untouched:
the shared store of transaction bodies is not written (so the original's
`DynamicMemoryUsage` and rendered output, both computed against the store,
are unchanged), while the copy's designated entry does become the
summary-only value — collision-entry state is not shared destructively
between a record and its copy. -/
theorem copy_independent_truncation (s : TxStore) (r : SharedInvalidTxnInfo)
    (i : Nat) (e : SharedCollisionEntry)
    (he : r.collidedWith.get? i = some e) :
    (sharedTruncateAt s r i).1 = s
    ∧ sharedUsage (sharedTruncateAt s r i).1 r = sharedUsage s r
    ∧ sharedRender (sharedTruncateAt s r i).1 r = sharedRender s r
    ∧ (sharedTruncateAt s r i).2.collidedWith.get? i
        = some (sharedSummary e) := by
  have hst : sharedTruncateAt s r i
      = (s, { r with collidedWith := r.collidedWith.set i (sharedSummary e) }) := by
    unfold sharedTruncateAt
    rw [he]
  refine ⟨by rw [hst], by rw [hst], by rw [hst], ?_⟩
  rw [hst]
  simp only []
  rw [List.get?_set_eq, he]
  rfl

/-!
## Concrete witnesses
-/

/-- A sample collision entry with a 2-byte transaction body. -/
def sampleEntryA : CollisionEntry :=
  { txId := 1, numInputs := 1, numOutputs := 1, body := some [9, 9] }

/-- A sample collision entry with a 3-byte transaction body. -/
def sampleEntryB : CollisionEntry :=
  { txId := 2, numInputs := 2, numOutputs := 2, body := some [8, 8, 8] }

/-- A sample record with two collision entries (footprint 40). -/
def sampleRecord : InvalidTxnInfo :=
  { txId := 5, txBody := [1, 2, 3], rejectionReason := 7, timestamp := 8,
    height := 9, collidedWith := [sampleEntryA, sampleEntryB] }

/-- A sample record with no collision entries (footprint 1). -/
def sampleRecord2 : InvalidTxnInfo :=
  { txId := 6, txBody := [4], rejectionReason := 3, timestamp := 2,
    height := 1, collidedWith := [] }

/-- A sample conflict tracker in which outpoint (9,0) is claimed by 5. -/
def sampleDetector : CTxnDoubleSpendDetector :=
  { claims := [({ txid := 9, n := 0 }, 5)] }

/-- A sample shared store holding two transaction bodies. -/
def sampleStore : TxStore := [[1, 2], [3, 3, 3]]

/-- A sample shared collision entry holding handle 1. -/
def sampleSharedEntry : SharedCollisionEntry :=
  { txId := 2, numInputs := 1, numOutputs := 1, handle := some 1 }

/-- A sample shared record with one collision entry. -/
def sampleShared : SharedInvalidTxnInfo :=
  { txId := 7, txHandle := 0, rejectionReason := 3, timestamp := 4,
    height := 5, collidedWith := [sampleSharedEntry] }

theorem publish_enough_space_for_info_witness :
    (drain (Publish (mkPublisher [0] 40) sampleRecord)).delivered
        = [0].map (fun s => (s, sampleRecord))
    ∧ (drain (Publish (mkPublisher [0] 40) sampleRecord)).delivered.map
          (fun q => InvalidTxnInfoToJson q.2)
        = [0].map (fun _ => InvalidTxnInfoToJson sampleRecord) :=
  publish_enough_space_for_info [0] 40 sampleRecord (by decide) (by decide)

theorem publish_missing_some_space_for_info_witness :
    (drain (Publish (mkPublisher [0] 37) sampleRecord)).delivered
        = [0].map (fun s =>
            (s, withCollided sampleRecord
              ([sampleEntryA] ++ [TruncateTransactionDetails sampleEntryB])))
    ∧ (drain (Publish (mkPublisher [0] 37) sampleRecord)).delivered.map
          (fun q => InvalidTxnInfoToJson q.2)
        = [0].map (fun _ =>
            InvalidTxnInfoToJson
              (withCollided sampleRecord
                ([sampleEntryA] ++ [TruncateTransactionDetails sampleEntryB]))) :=
  publish_missing_some_space_for_info [0] 37 sampleRecord [sampleEntryA]
    sampleEntryB (by decide) (by decide) (by decide) (by decide)

theorem publish_not_enough_space_for_info_witness :
    Publish (mkPublisher [0] 1) sampleRecord = mkPublisher [0] 1
    ∧ (drain (Publish (mkPublisher [0] 1) sampleRecord)).delivered = [] :=
  publish_not_enough_space_for_info [0] 1 sampleRecord (by decide)

theorem fifo_delivery_witness :
    (drain (Publish (Publish (mkPublisher [0] 41) sampleRecord)
        sampleRecord2)).delivered
      = [0].map (fun s => (s, sampleRecord))
        ++ [0].map (fun s => (s, sampleRecord2)) :=
  fifo_delivery [0] 41 sampleRecord sampleRecord2 (by decide) (by decide)
    (by decide)

theorem insertTxnInputs_rejects_conflicts_witness :
    (insertTxnInputs sampleDetector
        [{ txid := 9, n := 0 }, { txid := 9, n := 1 }] 7).1 = false
    ∧ (insertTxnInputs sampleDetector
        [{ txid := 9, n := 0 }, { txid := 9, n := 1 }] 7).2.2 = sampleDetector
    ∧ (insertTxnInputs sampleDetector
          [{ txid := 9, n := 0 }, { txid := 9, n := 1 }] 7).2.1
        = ([{ txid := 9, n := 0 }, { txid := 9, n := 1 }].filterMap
            (fun o2 => lookupClaimant sampleDetector o2)).dedup
    ∧ (insertTxnInputs sampleDetector
        [{ txid := 9, n := 0 }, { txid := 9, n := 1 }] 7).2.1.Nodup :=
  insertTxnInputs_rejects_conflicts sampleDetector
    [{ txid := 9, n := 0 }, { txid := 9, n := 1 }] 7 { txid := 9, n := 0 } 5
    (by decide) (by decide)

theorem truncation_idempotent_monotone_witness :
    DynamicMemoryUsage (truncateEntryAt sampleRecord 0)
        < DynamicMemoryUsage sampleRecord
    ∧ truncateEntryAt (truncateEntryAt sampleRecord 0) 0
        = truncateEntryAt sampleRecord 0
    ∧ InvalidTxnInfoToJson (truncateEntryAt (truncateEntryAt sampleRecord 0) 0)
        = InvalidTxnInfoToJson (truncateEntryAt sampleRecord 0)
    ∧ DynamicMemoryUsage (truncateEntryAt sampleRecord 0)
        ≤ DynamicMemoryUsage sampleRecord := by
  have h := truncation_idempotent_monotone sampleRecord 0 sampleEntryA
    (by decide) (by unfold RecordWf; decide)
  exact ⟨h.1 (by decide), h.2.2.1, h.2.2.2.1, h.2.2.2.2⟩

theorem render_path_stable_witness :
    truncateEntryAt sampleRecord 1
        = withCollided sampleRecord
            (sampleRecord.collidedWith.set 1 (summaryOf sampleEntryB))
    ∧ InvalidTxnInfoToJson (truncateEntryAt sampleRecord 1)
        = InvalidTxnInfoToJson
            (withCollided sampleRecord
              (sampleRecord.collidedWith.set 1 (summaryOf sampleEntryB)))
    ∧ DynamicMemoryUsage (truncateEntryAt sampleRecord 1)
        = DynamicMemoryUsage
            (withCollided sampleRecord
              (sampleRecord.collidedWith.set 1 (summaryOf sampleEntryB))) :=
  render_path_stable sampleRecord 1 sampleEntryB (by decide)

theorem copy_independent_truncation_witness :
    (sharedTruncateAt sampleStore sampleShared 0).1 = sampleStore
    ∧ sharedUsage (sharedTruncateAt sampleStore sampleShared 0).1 sampleShared
        = sharedUsage sampleStore sampleShared
    ∧ sharedRender (sharedTruncateAt sampleStore sampleShared 0).1 sampleShared
        = sharedRender sampleStore sampleShared
    ∧ (sharedTruncateAt sampleStore sampleShared 0).2.collidedWith.get? 0
        = some (sharedSummary sampleSharedEntry) :=
  copy_independent_truncation sampleStore sampleShared 0 sampleSharedEntry
    (by decide)
